import Mathlib

/-!
Shallow embedding of the Robust Literature Review Generator (app.py) and
verification of its specification claims.

The program is a three-stage pipeline: a web search fetcher
(`google_search`), an academic search fetcher (`arxiv_search`), and a
prompt-building generation step (`ReportAgent.run`), sequenced by
`LiteratureReviewTeam.conduct_review` and triggered from `main`.

External effects (HTTP responses, the arxiv client's paper stream, the
language model) are modelled as explicit environment values passed to the
embedded functions; an environment constructor `fail` stands for the
underlying call raising an exception at that point.  Python strings are
modelled as Lean `String`; Python slicing `s[:n]` is `pyTake s n`
(code-point prefix, as in Python), `len` is `pyLen`, `str.split()` is
`pyWords`, `' '.join` is `pyJoinSp`, `str.strip()` is `pyStrip`.
-/

set_option linter.unusedVariables false

/-- Python `s[:n]`: the first `n` code points of `s`. -/
def pyTake (s : String) (n : Nat) : String := ⟨s.data.take n⟩

/-- Python `len(s)`: the number of code points of `s`. -/
def pyLen (s : String) : Nat := s.data.length

/-- Splits a character list on whitespace, dropping empty pieces, with the
current (reversed) word as accumulator: the semantics of Python
`str.split()` with no argument. -/
def pyWordsAux : List Char → List Char → List (List Char)
  | cur, [] => if cur = [] then [] else [cur.reverse]
  | cur, c :: cs =>
    if c.isWhitespace then
      if cur = [] then pyWordsAux [] cs else cur.reverse :: pyWordsAux [] cs
    else pyWordsAux (c :: cur) cs

/-- Python `s.split()`: whitespace-separated words of `s`. -/
def pyWords (s : String) : List String :=
  (pyWordsAux [] s.data).map fun w => ⟨w⟩

/-- Number of whitespace-separated words of `s` (length of `s.split()`). -/
def pyWordCount (s : String) : Nat := (pyWordsAux [] s.data).length

/-- Joins character lists with single spaces. -/
def joinSp : List (List Char) → List Char
  | [] => []
  | [w] => w
  | w :: ws => w ++ ' ' :: joinSp ws

/-- Python `' '.join(l)`. -/
def pyJoinSp (l : List String) : String := ⟨joinSp (l.map String.data)⟩

/-- Python `s.strip()`: drop leading and trailing whitespace. -/
def pyStrip (s : String) : String :=
  ⟨((s.data.dropWhile Char.isWhitespace).reverse.dropWhile
      Char.isWhitespace).reverse⟩

/-- Configuration constant `MAX_INPUT_LENGTH` from app.py. -/
def MAX_INPUT_LENGTH : Nat := 1024

/-- Configuration constant `MAX_SEARCH_RESULTS` from app.py. -/
def MAX_SEARCH_RESULTS : Nat := 2

/-- Configuration constant `MAX_BODY_LENGTH` from app.py. -/
def MAX_BODY_LENGTH : Nat := 2000

/-- The dict appended by `google_search` for each parsed result block. -/
structure SearchResult where
  title : String
  link : String
  snippet : String
  body : String
deriving Repr, DecidableEq

/-- The dict appended by `arxiv_search` for each paper. -/
structure PaperResult where
  title : String
  authors : List String
  published : String
  abstract : String
  pdf_url : String
deriving Repr, DecidableEq

/-- One result container element (`div` of class tF2Cxc) found in the search
page HTML, as seen by the per-result extraction code of `google_search`:
`h3` is the title element's text when present; `anchor` is `none` when no
`a` element exists (the code substitutes "#"), `some none` when an `a`
element exists but has no href attribute (the subscript raises, and the
per-result handler drops the result), and `some (some h)` when the href is
`h`; `span` is the snippet element's text when present; `page` is the
outcome of the secondary fetch of the linked page (`Except.error` models
that fetch raising, which degrades the body to the empty string). -/
structure ResultBlock where
  h3 : Option String
  anchor : Option (Option String)
  span : Option String
  page : Except String String
deriving Repr

/-- The outcome of the HTTP GET issued by `google_search`: `fail` models a
transport error or a non-success status (`raise_for_status`); `ok` carries
the result blocks parsed out of the HTML body. -/
inductive GoogleEnv where
  | fail (msg : String)
  | ok (blocks : List ResultBlock)
deriving Repr

/-- The link extraction of one result block. `none` models the
`g.find('a')['href']` subscript raising (anchor without href), which the
per-result `except` catches, dropping this result. -/
def ResultBlock.linkOf : Option (Option String) → Option String
  | none => some "#"
  | some none => none
  | some (some h) => some h

/-- The per-result extraction loop body of `google_search`: builds the
appended dict, or `none` when the per-result handler caught an exception
and the result was dropped. -/
def processBlock (g : ResultBlock) : Option SearchResult :=
  let title := g.h3.getD "No title"
  match ResultBlock.linkOf g.anchor with
  | none => none
  | some link =>
    let snippet := g.span.getD "No snippet"
    let body :=
      match g.page with
      | .error _ => ""
      | .ok text => pyJoinSp ((pyWords text).take MAX_BODY_LENGTH)
    some { title := pyTake title 200
           link := link
           snippet := pyTake snippet 500
           body := pyTake body MAX_BODY_LENGTH }

/-- `google_search(query, num_results)` from app.py.  On `GoogleEnv.fail`
the outer handler catches and the accumulated (empty) list is returned;
otherwise the first `num_results` parsed blocks are processed, each either
appending one dict or being dropped by the per-result handler. -/
def google_search (env : GoogleEnv) (query : String)
    (num_results : Nat := MAX_SEARCH_RESULTS) : List SearchResult :=
  match env with
  | .fail _ => []
  | .ok blocks => (blocks.take num_results).filterMap processBlock

/-- One paper record yielded by the arxiv client's result stream.
`published` is the `strftime`-formatted date when the paper has one;
`summary` and `pdf_url` model the fields tested for Python truthiness
before use. -/
structure ArxivPaper where
  title : String
  authors : List String
  published : Option String
  summary : String
  pdf_url : Option String
deriving Repr, DecidableEq

/-- The outcome of the arxiv query: `fail` models an exception before any
paper is yielded; `stream papers raisesAfter` models the iterator yielding
`papers` and then either completing or raising (`raisesAfter`), in which
case the outer handler returns the accumulated list.  Modelled from the
library contract: `arxiv.Client.results` honours the search's
`max_results`, so at most `max_results` of the yielded papers are seen. -/
inductive ArxivEnv where
  | fail (msg : String)
  | stream (papers : List ArxivPaper) (raisesAfter : Bool)
deriving Repr, DecidableEq

/-- The dict appended by `arxiv_search` for one yielded paper. -/
def mkPaperResult (paper : ArxivPaper) : PaperResult :=
  { title := pyTake paper.title 300
    authors := (paper.authors.map fun a => pyTake a 50).take 5
    published :=
      match paper.published with
      | some d => d
      | none => "Unknown"
    abstract :=
      if paper.summary = "" then "No abstract" else pyTake paper.summary 1000
    pdf_url :=
      match paper.pdf_url with
      | some u => if u = "" then "#" else u
      | none => "#" }

/-- `arxiv_search(query, max_results)` from app.py. -/
def arxiv_search (env : ArxivEnv) (query : String)
    (max_results : Nat := MAX_SEARCH_RESULTS) : List PaperResult :=
  match env with
  | .fail _ => []
  | .stream papers _ => (papers.take max_results).map mkPaperResult

/-- Simplified Python repr of a string: quotes it.  Escape handling inside
repr is not modelled; no claim depends on the rendering's content, only on
its truncation. -/
def pyReprStr (s : String) : String := "\x27" ++ s ++ "\x27"

/-- Python `str` of the dict appended by `google_search`. -/
def pyStrSearchResult (r : SearchResult) : String :=
  "\x7b\x27title\x27: " ++ pyReprStr r.title ++ ", \x27link\x27: " ++
    pyReprStr r.link ++ ", \x27snippet\x27: " ++ pyReprStr r.snippet ++
    ", \x27body\x27: " ++ pyReprStr r.body ++ "\x7d"

/-- Python `str` of a list, given the rendering of its elements. -/
def pyStrList {α : Type} (f : α → String) (l : List α) : String :=
  "[" ++ String.intercalate ", " (l.map f) ++ "]"

/-- Python `str` of the dict appended by `arxiv_search`. -/
def pyStrPaperResult (p : PaperResult) : String :=
  "\x7b\x27title\x27: " ++ pyReprStr p.title ++ ", \x27authors\x27: " ++
    pyStrList pyReprStr p.authors ++ ", \x27published\x27: " ++
    pyReprStr p.published ++ ", \x27abstract\x27: " ++ pyReprStr p.abstract ++
    ", \x27pdf_url\x27: " ++ pyReprStr p.pdf_url ++ "\x7d"

/-- A dynamically typed Python value returned by a search agent: either an
actual list of records, or some non-list value, for which
`isinstance(x, list)` is false. -/
inductive PyVal (α : Type) where
  | list (l : List α)
  | nonList
deriving Repr

/-- The defensive coercion in `conduct_review`: a non-list value is
replaced by the empty list. -/
def PyVal.coerceToList {α : Type} : PyVal α → List α
  | .list l => l
  | .nonList => []

/-- `GoogleSearchAgent.run` from app.py: truncates the query to 100
characters, calls `google_search` with the default result cap, and pairs
the (list-valued) result with its prompt string. -/
def GoogleSearchAgent.run (env : GoogleEnv) (topic : String) :
    PyVal SearchResult × String :=
  let safe_topic := pyTake topic 100
  (.list (google_search env safe_topic), "Google search for: " ++ safe_topic)

/-- `ArxivSearchAgent.run` from app.py. -/
def ArxivSearchAgent.run (env : ArxivEnv) (topic : String) :
    PyVal PaperResult × String :=
  let safe_topic := pyTake topic 100
  (.list (arxiv_search env safe_topic), "Arxiv search for: " ++ safe_topic)

/-- The language model's behaviour for one generation call: `raise` models
an exception during tokenization or generation; `output cols decoded`
models a produced output tensor with `outputs.shape[1] = cols` whose first
row decodes (special tokens stripped) to `decoded`. -/
inductive GenEnv where
  | raise (msg : String)
  | output (cols : Nat) (decoded : String)
deriving Repr

/-- The `safe_google` context string built by `ReportAgent.run`:
`str(google_results)[:1500]`. -/
def ReportAgent.safe_google (google_results : List SearchResult) : String :=
  pyTake (pyStrList pyStrSearchResult google_results) 1500

/-- The `safe_arxiv` context string built by `ReportAgent.run`:
`str(arxiv_results)[:1500]`. -/
def ReportAgent.safe_arxiv (arxiv_results : List PaperResult) : String :=
  pyTake (pyStrList pyStrPaperResult arxiv_results) 1500

/-- The f-string prompt constructed by `ReportAgent.run` before its `try`
block. -/
def ReportAgent.mkPrompt (topic : String)
    (google_results : List SearchResult)
    (arxiv_results : List PaperResult) : String :=
  let truncated_topic := pyTake topic 200
  "Write a literature review about: " ++ truncated_topic ++
    "\n        Google Results: " ++ ReportAgent.safe_google google_results ++
    "\n        Arxiv Papers: " ++ ReportAgent.safe_arxiv arxiv_results ++
    "\n        Requirements: Formal tone, synthesize key findings, reference Hayek at the end.\n        "

/-- `ReportAgent.run` from app.py: constructs the prompt, then tokenizes
and generates under a `try` whose handler substitutes a fixed failure
string; a non-empty output tensor is decoded and truncated to 5000
characters, an empty one is replaced by a fixed failure string.  Returns
`(text, prompt)`. -/
def ReportAgent.run (gen : GenEnv) (topic : String)
    (google_results : List SearchResult)
    (arxiv_results : List PaperResult) : String × String :=
  let prompt := ReportAgent.mkPrompt topic google_results arxiv_results
  let text :=
    match gen with
    | .raise _ => "Error generating literature review"
    | .output cols decoded =>
      if 0 < cols then pyTake decoded 5000
      else "Failed to generate review - empty output"
  (text, prompt)

/-- The success-variant dict returned by `conduct_review`. -/
structure ReviewSuccess where
  google_prompt : String
  arxiv_prompt : String
  report_prompt : String
  google_results : List SearchResult
  arxiv_results : List PaperResult
  literature_review : String
deriving Repr, DecidableEq

/-- The dict returned by `conduct_review`: the success variant from the
end of its `try` block, or the failure variant built by its `except`
handler, carrying the error message and the fixed failure review string. -/
inductive PipelineResult where
  | success (r : ReviewSuccess)
  | failure (error : String) (literature_review : String)
deriving Repr, DecidableEq

/-- The key set of the returned Python dict, mirroring the two dict
literals in `conduct_review`. -/
def PipelineResult.keys : PipelineResult → List String
  | .success _ =>
    ["google_prompt", "arxiv_prompt", "report_prompt",
     "google_results", "arxiv_results", "literature_review"]
  | .failure _ _ => ["error", "literature_review"]

/-- `LiteratureReviewTeam.conduct_review` from app.py, parameterised over
the outcome of each step inside its `try` block: `googleStep` and
`arxivStep` are the values returned by the two search agent calls
(`.error` models the call raising), and `reportStep` is the report agent
call, whose `.ok` case carries the model behaviour consumed by
`ReportAgent.run` (`.error` models an exception escaping the report agent
despite its internal guarding, e.g. from prompt construction).  Any
`.error` is caught by the top-level `except`, which returns the failure
dict. -/
def LiteratureReviewTeam.conduct_review
    (googleStep : Except String (PyVal SearchResult × String))
    (arxivStep : Except String (PyVal PaperResult × String))
    (reportStep : Except String GenEnv)
    (topic : String) : PipelineResult :=
  match googleStep with
  | .error e =>
    .failure ("System error: " ++ e)
      "Failed to generate review due to system error"
  | .ok (googleVal, google_prompt) =>
    match arxivStep with
    | .error e =>
      .failure ("System error: " ++ e)
        "Failed to generate review due to system error"
    | .ok (arxivVal, arxiv_prompt) =>
      let google_results := googleVal.coerceToList
      let arxiv_results := arxivVal.coerceToList
      match reportStep with
      | .error e =>
        .failure ("System error: " ++ e)
          "Failed to generate review due to system error"
      | .ok gen =>
        let rp := ReportAgent.run gen (pyTake topic 200)
          (google_results.take MAX_SEARCH_RESULTS)
          (arxiv_results.take MAX_SEARCH_RESULTS)
        .success
          { google_prompt := google_prompt
            arxiv_prompt := arxiv_prompt
            report_prompt := rp.2
            google_results := google_results
            arxiv_results := arxiv_results
            literature_review := rp.1 }

/-- `conduct_review` with the real agents wired in, as constructed by
`LiteratureReviewTeam.__init__`: neither embedded agent raises or returns
a non-list value. -/
def LiteratureReviewTeam.conduct_review_wired (genv : GoogleEnv)
    (aenv : ArxivEnv) (gen : GenEnv) (topic : String) : PipelineResult :=
  LiteratureReviewTeam.conduct_review
    (.ok (GoogleSearchAgent.run genv topic))
    (.ok (ArxivSearchAgent.run aenv topic))
    (.ok gen) topic

/-- What `main` does after the Generate Review button: either the topic is
rejected before the team is constructed, or the pipeline ran and produced
a result. -/
inductive MainAction where
  | rejected
  | ran (result : PipelineResult)
deriving Repr

/-- The decision logic of `main` from app.py (named `App.main` because a
bare `main` must be an entry point in Lean): a topic whose `strip()` is
empty is rejected with an error message and an early return, before the
team is constructed and before any fetch; otherwise `conduct_review` runs
with the real agents. -/
def App.main (genv : GoogleEnv) (aenv : ArxivEnv) (gen : GenEnv)
    (topic : String) : MainAction :=
  if pyStrip topic = "" then .rejected
  else .ran (LiteratureReviewTeam.conduct_review_wired genv aenv gen topic)

/-- Splitting a nonempty accumulator always yields at least one word. -/
theorem pyWordsAux_length_pos (cs : List Char) :
    ∀ cur : List Char, cur ≠ [] → 1 ≤ (pyWordsAux cur cs).length := by
  induction cs with
  | nil =>
    intro cur h
    simp [pyWordsAux, h]
  | cons c cs ih =>
    intro cur h
    by_cases hw : c.isWhitespace
    · simp [pyWordsAux, hw, h]
    · simp only [pyWordsAux, hw, if_false, Bool.false_eq_true]
      exact ih (c :: cur) (by simp)

/-- Splitting a prefix yields at most as many words as splitting the whole
list. -/
theorem pyWordsAux_take_le (cs : List Char) :
    ∀ (n : Nat) (cur : List Char),
      (pyWordsAux cur (cs.take n)).length ≤ (pyWordsAux cur cs).length := by
  induction cs with
  | nil => intro n cur; simp
  | cons c cs ih =>
    intro n cur
    cases n with
    | zero =>
      by_cases hc : cur = []
      · simp [pyWordsAux, hc]
      · simpa [pyWordsAux, hc] using pyWordsAux_length_pos (c :: cs) cur hc
    | succ m =>
      simp only [List.take_succ_cons]
      by_cases hw : c.isWhitespace
      · by_cases hc : cur = []
        · simpa [pyWordsAux, hw, hc] using ih m []
        · simpa [pyWordsAux, hw, hc] using ih m []
      · simpa [pyWordsAux, hw] using ih m (c :: cur)

/-- Scanning a whitespace-free chunk just moves it into the accumulator. -/
theorem pyWordsAux_append (w : List Char) :
    ∀ (cur rest : List Char), (∀ c ∈ w, ¬c.isWhitespace = true) →
      pyWordsAux cur (w ++ rest) = pyWordsAux (w.reverse ++ cur) rest := by
  induction w with
  | nil => intro cur rest _; simp
  | cons c w ih =>
    intro cur rest h
    have hc : ¬c.isWhitespace = true := h c (by simp)
    simp only [List.cons_append, pyWordsAux, hc, if_false, Bool.false_eq_true,
      List.append_eq]
    rw [ih (c :: cur) rest fun d hd => h d (by simp [hd])]
    congr 1
    simp

/-- Splitting the space-join of clean nonempty words recovers the words. -/
theorem pyWordsAux_joinSp :
    ∀ l : List (List Char),
      (∀ w ∈ l, w ≠ [] ∧ ∀ c ∈ w, ¬c.isWhitespace = true) →
      pyWordsAux [] (joinSp l) = l := by
  intro l
  induction l with
  | nil => intro _; simp [joinSp, pyWordsAux]
  | cons w ws ih =>
    intro h
    obtain ⟨hne, hclean⟩ := h w (by simp)
    cases ws with
    | nil =>
      have h1 : pyWordsAux [] (w ++ []) = pyWordsAux (w.reverse ++ []) [] :=
        pyWordsAux_append w [] [] hclean
      simp only [List.append_nil] at h1
      show pyWordsAux [] w = [w]
      rw [h1]
      simp [pyWordsAux, List.reverse_eq_nil_iff, hne]
    | cons x xs =>
      have hrest : ∀ v ∈ x :: xs, v ≠ [] ∧ ∀ c ∈ v, ¬c.isWhitespace = true :=
        fun v hv => h v (by simp [hv])
      show pyWordsAux [] (w ++ ' ' :: joinSp (x :: xs)) = w :: x :: xs
      rw [pyWordsAux_append w [] (' ' :: joinSp (x :: xs)) hclean]
      have hsp : (' ' : Char).isWhitespace = true := by decide
      simp [pyWordsAux, hsp, List.reverse_eq_nil_iff, hne, ih hrest]

/-- Every word produced from a clean accumulator is nonempty and
whitespace-free. -/
theorem pyWordsAux_clean (cs : List Char) :
    ∀ cur : List Char, (∀ c ∈ cur, ¬c.isWhitespace = true) →
      ∀ w ∈ pyWordsAux cur cs, w ≠ [] ∧ ∀ c ∈ w, ¬c.isWhitespace = true := by
  induction cs with
  | nil =>
    intro cur hcur w hw
    by_cases hc : cur = []
    · simp [pyWordsAux, hc] at hw
    · simp [pyWordsAux, hc] at hw
      subst hw
      exact ⟨by simp [hc], fun c hc' => hcur c (by simpa using hc')⟩
  | cons c cs ih =>
    intro cur hcur w hw
    by_cases hws : c.isWhitespace
    · by_cases hc : cur = []
      · simp only [pyWordsAux, hws, if_true, hc] at hw
        exact ih [] (by simp) w (by simpa using hw)
      · simp only [pyWordsAux, hws, if_true, hc, if_false] at hw
        rcases List.mem_cons.mp (by simpa using hw) with hw' | hw'
        · subst hw'
          exact ⟨by simp [hc], fun d hd => hcur d (by simpa using hd)⟩
        · exact ih [] (by simp) w hw'
    · simp only [pyWordsAux, hws, if_false, Bool.false_eq_true] at hw
      refine ih (c :: cur) ?_ w hw
      intro d hd
      rcases List.mem_cons.mp hd with h | h
      · subst h; exact hws
      · exact hcur d h

/-- The word count of the character-truncated space-join of the first `n`
words of a text is at most `n`. -/
theorem pyWordCount_joined_take (text : String) (n m : Nat) :
    pyWordCount (pyTake (pyJoinSp ((pyWords text).take n)) m) ≤ n := by
  have hclean : ∀ w ∈ (pyWordsAux [] text.data).take n,
      w ≠ [] ∧ ∀ c ∈ w, ¬c.isWhitespace = true := by
    intro w hw
    exact pyWordsAux_clean text.data [] (by simp) w (List.take_subset n _ hw)
  have hdata : (pyJoinSp ((pyWords text).take n)).data
      = joinSp ((pyWordsAux [] text.data).take n) := by
    show joinSp ((((pyWordsAux [] text.data).map String.mk).take n).map
      String.data) = _
    rw [← List.map_take, List.map_map]
    rw [show String.data ∘ String.mk = id from rfl, List.map_id]
  calc pyWordCount (pyTake (pyJoinSp ((pyWords text).take n)) m)
      = (pyWordsAux [] (((pyJoinSp ((pyWords text).take n)).data).take m)).length := rfl
    _ ≤ (pyWordsAux [] ((pyJoinSp ((pyWords text).take n)).data)).length :=
        pyWordsAux_take_le _ m []
    _ = ((pyWordsAux [] text.data).take n).length := by
        rw [hdata, pyWordsAux_joinSp _ hclean]
    _ ≤ n := by
        rw [List.length_take]
        omega

/-- A Python slice `s[:n]` has length at most `n`. -/
theorem pyLen_pyTake_le (s : String) (n : Nat) : pyLen (pyTake s n) ≤ n := by
  show (s.data.take n).length ≤ n
  rw [List.length_take]
  omega

/-- Every record appended by the web fetcher's per-result loop satisfies
the title, snippet and body bounds. -/
theorem processBlock_bounds (g : ResultBlock) (r : SearchResult)
    (h : processBlock g = some r) :
    pyLen r.title ≤ 200 ∧ pyLen r.snippet ≤ 500 ∧
      pyWordCount r.body ≤ MAX_BODY_LENGTH := by
  unfold processBlock at h
  cases ha : ResultBlock.linkOf g.anchor with
  | none => rw [ha] at h; exact absurd h (by simp)
  | some link =>
    rw [ha] at h
    simp only [Option.some.injEq] at h
    subst h
    refine ⟨pyLen_pyTake_le _ 200, pyLen_pyTake_le _ 500, ?_⟩
    cases hp : g.page with
    | error e =>
      show pyWordCount (pyTake "" MAX_BODY_LENGTH) ≤ MAX_BODY_LENGTH
      decide
    | ok text =>
      show pyWordCount (pyTake (pyJoinSp ((pyWords text).take MAX_BODY_LENGTH))
        MAX_BODY_LENGTH) ≤ MAX_BODY_LENGTH
      exact pyWordCount_joined_take text MAX_BODY_LENGTH MAX_BODY_LENGTH

/-- Every record appended by the academic fetcher satisfies the title and
author bounds. -/
theorem mkPaperResult_bounds (paper : ArxivPaper) :
    pyLen (mkPaperResult paper).title ≤ 300 ∧
      (mkPaperResult paper).authors.length ≤ 5 ∧
      ∀ a ∈ (mkPaperResult paper).authors, pyLen a ≤ 50 := by
  refine ⟨pyLen_pyTake_le _ 300, ?_, ?_⟩
  · show ((paper.authors.map fun a => pyTake a 50).take 5).length ≤ 5
    rw [List.length_take]
    omega
  · intro a ha
    have ha' : a ∈ paper.authors.map fun a => pyTake a 50 :=
      List.take_subset 5 _ ha
    obtain ⟨b, _, hb⟩ := List.mem_map.mp ha'
    exact hb ▸ pyLen_pyTake_le b 50

/-- C1: for every query string and every result cap, both fetchers return
a list of length at most the cap ("never raises" is the totality of the
embedded functions over every environment), and when the underlying
network call fails entirely (environment `fail`) they return the empty
list. -/
theorem claim_C1_fetchers_bounded_never_raise (genv : GoogleEnv)
    (aenv : ArxivEnv) (query1 query2 : String) (cap1 cap2 : Nat)
    (msg1 msg2 : String) :
    (google_search genv query1 cap1).length ≤ cap1 ∧
    (arxiv_search aenv query2 cap2).length ≤ cap2 ∧
    google_search (.fail msg1) query1 cap1 = [] ∧
    arxiv_search (.fail msg2) query2 cap2 = [] := by
  refine ⟨?_, ?_, rfl, rfl⟩
  · cases genv with
    | fail m => simp [google_search]
    | ok blocks =>
      simp only [google_search]
      calc ((blocks.take cap1).filterMap processBlock).length
          ≤ (blocks.take cap1).length := List.length_filterMap_le _ _
        _ ≤ cap1 := by rw [List.length_take]; omega
  · cases aenv with
    | fail m => simp [arxiv_search]
    | stream papers raisesAfter =>
      simp only [arxiv_search, List.length_map]
      rw [List.length_take]
      omega

/-- C5: every record produced by the web fetcher has a title of at most
200 characters, a snippet of at most 500 characters and a body of at most
2000 words; every record produced by the academic fetcher has a title of
at most 300 characters and at most 5 authors, each name at most 50
characters. -/
theorem claim_C5_record_field_bounds (genv : GoogleEnv) (aenv : ArxivEnv)
    (query1 query2 : String) (cap1 cap2 : Nat) :
    (∀ r ∈ google_search genv query1 cap1,
      pyLen r.title ≤ 200 ∧ pyLen r.snippet ≤ 500 ∧
        pyWordCount r.body ≤ 2000) ∧
    (∀ p ∈ arxiv_search aenv query2 cap2,
      pyLen p.title ≤ 300 ∧ p.authors.length ≤ 5 ∧
        ∀ a ∈ p.authors, pyLen a ≤ 50) := by
  constructor
  · intro r hr
    cases genv with
    | fail m => simp [google_search] at hr
    | ok blocks =>
      simp only [google_search] at hr
      obtain ⟨g, _, hpr⟩ := List.mem_filterMap.mp hr
      exact processBlock_bounds g r hpr
  · intro p hp
    cases aenv with
    | fail m => simp [arxiv_search] at hp
    | stream papers raisesAfter =>
      simp only [arxiv_search] at hp
      obtain ⟨paper, _, hpp⟩ := List.mem_map.mp hp
      exact hpp ▸ mkPaperResult_bounds paper

/-- C5 witness: the bounds instantiated on one concrete record produced by
each fetcher. -/
theorem claim_C5_witness :
    ((⟨"T", "L", "S", "alpha beta"⟩ : SearchResult) ∈
        google_search
          (.ok [⟨some "T", some (some "L"), some "S", .ok "alpha beta"⟩])
          "q" 2 ∧
      pyLen (SearchResult.title ⟨"T", "L", "S", "alpha beta"⟩) ≤ 200 ∧
      pyLen (SearchResult.snippet ⟨"T", "L", "S", "alpha beta"⟩) ≤ 500 ∧
      pyWordCount (SearchResult.body ⟨"T", "L", "S", "alpha beta"⟩) ≤ 2000) ∧
    ((⟨"PT", ["Alice"], "2024-01-02", "abs", "u"⟩ : PaperResult) ∈
        arxiv_search
          (.stream [⟨"PT", ["Alice"], some "2024-01-02", "abs", some "u"⟩]
            false) "q" 2 ∧
      pyLen (PaperResult.title ⟨"PT", ["Alice"], "2024-01-02", "abs", "u"⟩)
        ≤ 300 ∧
      (PaperResult.authors
        ⟨"PT", ["Alice"], "2024-01-02", "abs", "u"⟩).length ≤ 5 ∧
      pyLen "Alice" ≤ 50) := by
  have hmem : (⟨"T", "L", "S", "alpha beta"⟩ : SearchResult) ∈
      google_search
        (.ok [⟨some "T", some (some "L"), some "S", .ok "alpha beta"⟩])
        "q" 2 := by decide
  have hmem2 : (⟨"PT", ["Alice"], "2024-01-02", "abs", "u"⟩ : PaperResult) ∈
      arxiv_search
        (.stream [⟨"PT", ["Alice"], some "2024-01-02", "abs", some "u"⟩]
          false) "q" 2 := by decide
  have h := claim_C5_record_field_bounds
    (.ok [⟨some "T", some (some "L"), some "S", .ok "alpha beta"⟩])
    (.stream [⟨"PT", ["Alice"], some "2024-01-02", "abs", some "u"⟩] false)
    "q" "q" 2 2
  exact ⟨⟨hmem, (h.1 _ hmem).1, (h.1 _ hmem).2.1, (h.1 _ hmem).2.2⟩,
    ⟨hmem2, (h.2 _ hmem2).1, (h.2 _ hmem2).2.1,
      (h.2 _ hmem2).2.2 "Alice" (by decide)⟩⟩

/-- C8: a non-empty output tensor makes the review text the decoded text
truncated to 5000 characters; an empty output tensor substitutes the fixed
failure string instead of decoding; in every case (including the
exception handler's fixed string) the returned review text is at most
5000 characters. -/
theorem claim_C8_generation_output_bounds (topic : String)
    (g : List SearchResult) (a : List PaperResult) (gen : GenEnv)
    (cols : Nat) (decoded : String) :
    (0 < cols →
      (ReportAgent.run (.output cols decoded) topic g a).1 =
        pyTake decoded 5000) ∧
    (ReportAgent.run (.output 0 decoded) topic g a).1 =
      "Failed to generate review - empty output" ∧
    pyLen (ReportAgent.run gen topic g a).1 ≤ 5000 := by
  refine ⟨fun h => by simp [ReportAgent.run, h], by simp [ReportAgent.run], ?_⟩
  cases gen with
  | raise m =>
    show pyLen "Error generating literature review" ≤ 5000
    decide
  | output c d =>
    by_cases h : 0 < c
    · show pyLen (if 0 < c then pyTake d 5000
        else "Failed to generate review - empty output") ≤ 5000
      rw [if_pos h]
      exact pyLen_pyTake_le d 5000
    · show pyLen (if 0 < c then pyTake d 5000
        else "Failed to generate review - empty output") ≤ 5000
      rw [if_neg h]
      decide

/-- C8 witness: the three conjuncts at concrete inputs. -/
theorem claim_C8_witness :
    (ReportAgent.run (.output 1 "hello") "t" [] []).1 = pyTake "hello" 5000 ∧
    (ReportAgent.run (.output 0 "hello") "t" [] []).1 =
      "Failed to generate review - empty output" ∧
    pyLen (ReportAgent.run (.raise "boom") "t" [] []).1 ≤ 5000 :=
  ⟨(claim_C8_generation_output_bounds "t" [] [] (.raise "boom") 1 "hello").1
      (by decide),
   (claim_C8_generation_output_bounds "t" [] [] (.raise "boom") 1 "hello").2.1,
   (claim_C8_generation_output_bounds "t" [] [] (.raise "boom") 1 "hello").2.2⟩

/-- The first exception (if any) raised by the three steps inside the
orchestrator's `try` block, in execution order. -/
def firstStepError (gs : Except String (PyVal SearchResult × String))
    (as : Except String (PyVal PaperResult × String))
    (rs : Except String GenEnv) : Option String :=
  match gs with
  | .error e => some e
  | .ok _ =>
    match as with
    | .error e => some e
    | .ok _ =>
      match rs with
      | .error e => some e
      | .ok _ => none

/-- Does the returned dict come from the success branch of
`conduct_review`? -/
def PipelineResult.isSuccess : PipelineResult → Bool
  | .success _ => true
  | .failure _ _ => false

/-- C2: for every topic and every outcome of the three steps,
`conduct_review` returns a value of one of the two variants (totality of
the embedding models "never raises past its own boundary"); when no step
raises it returns the success variant, and the first exception escaping
the fetch/generate sequence is caught at the top level and converted into
the failure variant carrying a human-readable message. -/
theorem claim_C2_orchestrator_boundary
    (gs : Except String (PyVal SearchResult × String))
    (as : Except String (PyVal PaperResult × String))
    (rs : Except String GenEnv) (topic : String) :
    (firstStepError gs as rs = none →
      (LiteratureReviewTeam.conduct_review gs as rs topic).isSuccess = true) ∧
    (∀ e, firstStepError gs as rs = some e →
      LiteratureReviewTeam.conduct_review gs as rs topic =
        .failure ("System error: " ++ e)
          "Failed to generate review due to system error") := by
  rcases gs with e | ⟨gv, gp⟩
  · refine ⟨fun h => by simp [firstStepError] at h, fun e' he' => ?_⟩
    simp only [firstStepError, Option.some.injEq] at he'
    subst he'
    rfl
  · rcases as with e | ⟨av, ap⟩
    · refine ⟨fun h => by simp [firstStepError] at h, fun e' he' => ?_⟩
      simp only [firstStepError, Option.some.injEq] at he'
      subst he'
      rfl
    · rcases rs with e | gen
      · refine ⟨fun h => by simp [firstStepError] at h, fun e' he' => ?_⟩
        simp only [firstStepError, Option.some.injEq] at he'
        subst he'
        rfl
      · exact ⟨fun _ => rfl, fun e' he' => by simp [firstStepError] at he'⟩

/-- C2 witness: both conjuncts at concrete step outcomes. -/
theorem claim_C2_witness :
    (LiteratureReviewTeam.conduct_review (.ok (.list [], "g"))
      (.ok (.list [], "a")) (.ok (.output 1 "d")) "t").isSuccess = true ∧
    LiteratureReviewTeam.conduct_review (.error "boom")
        (.ok (.list [], "a")) (.ok (.output 1 "d")) "t" =
      .failure ("System error: " ++ "boom")
        "Failed to generate review due to system error" :=
  ⟨(claim_C2_orchestrator_boundary (.ok (.list [], "g")) (.ok (.list [], "a"))
      (.ok (.output 1 "d")) "t").1 rfl,
   (claim_C2_orchestrator_boundary (.error "boom") (.ok (.list [], "a"))
      (.ok (.output 1 "d")) "t").2 "boom" rfl⟩

/-- C3: when the generation step raises, the orchestrator still returns a
success-variant result whose review text is the fixed failure string and
whose report prompt is the originally constructed prompt; and the report
agent returns the constructed prompt regardless of the generation
outcome. -/
theorem claim_C3_generation_raise_degrades (gv : PyVal SearchResult)
    (gp : String) (av : PyVal PaperResult) (ap : String)
    (msg topic : String) (gen : GenEnv) (t : String)
    (g : List SearchResult) (a : List PaperResult) :
    LiteratureReviewTeam.conduct_review (.ok (gv, gp)) (.ok (av, ap))
        (.ok (.raise msg)) topic =
      .success
        { google_prompt := gp
          arxiv_prompt := ap
          report_prompt := ReportAgent.mkPrompt (pyTake topic 200)
            (gv.coerceToList.take MAX_SEARCH_RESULTS)
            (av.coerceToList.take MAX_SEARCH_RESULTS)
          google_results := gv.coerceToList
          arxiv_results := av.coerceToList
          literature_review := "Error generating literature review" } ∧
    (ReportAgent.run gen t g a).2 = ReportAgent.mkPrompt t g a :=
  ⟨rfl, rfl⟩

/-- C7: when either search step returns a non-list value, the orchestrator
coerces it to the empty list and still returns a success-variant result
with an empty list in place of the malformed one. -/
theorem claim_C7_nonlist_coerced (gp ap topic : String) (gen : GenEnv)
    (gl : List SearchResult) (al : List PaperResult) :
    LiteratureReviewTeam.conduct_review (.ok (.nonList, gp))
        (.ok (.list al, ap)) (.ok gen) topic =
      .success
        { google_prompt := gp
          arxiv_prompt := ap
          report_prompt := (ReportAgent.run gen (pyTake topic 200) []
            (al.take MAX_SEARCH_RESULTS)).2
          google_results := []
          arxiv_results := al
          literature_review := (ReportAgent.run gen (pyTake topic 200) []
            (al.take MAX_SEARCH_RESULTS)).1 } ∧
    LiteratureReviewTeam.conduct_review (.ok (.list gl, gp))
        (.ok (.nonList, ap)) (.ok gen) topic =
      .success
        { google_prompt := gp
          arxiv_prompt := ap
          report_prompt := (ReportAgent.run gen (pyTake topic 200)
            (gl.take MAX_SEARCH_RESULTS) []).2
          google_results := gl
          arxiv_results := []
          literature_review := (ReportAgent.run gen (pyTake topic 200)
            (gl.take MAX_SEARCH_RESULTS) []).1 } ∧
    LiteratureReviewTeam.conduct_review (.ok (.nonList, gp))
        (.ok (.nonList, ap)) (.ok gen) topic =
      .success
        { google_prompt := gp
          arxiv_prompt := ap
          report_prompt := (ReportAgent.run gen (pyTake topic 200) [] []).2
          google_results := []
          arxiv_results := []
          literature_review :=
            (ReportAgent.run gen (pyTake topic 200) [] []).1 } :=
  ⟨rfl, rfl, rfl⟩

/-- C6: on every success path the orchestrator hands the generation step a
topic truncated to at most 200 characters and both result lists capped at
MAX_SEARCH_RESULTS = 2, and the generation step truncates each list's
textual rendering to at most 1500 characters. -/
theorem claim_C6_generation_context_capped (gv : PyVal SearchResult)
    (gp : String) (av : PyVal PaperResult) (ap : String) (gen : GenEnv)
    (topic : String) (r : ReviewSuccess)
    (h : LiteratureReviewTeam.conduct_review (.ok (gv, gp)) (.ok (av, ap))
        (.ok gen) topic = .success r) :
    MAX_SEARCH_RESULTS = 2 ∧
    pyLen (pyTake topic 200) ≤ 200 ∧
    (gv.coerceToList.take MAX_SEARCH_RESULTS).length ≤ 2 ∧
    (av.coerceToList.take MAX_SEARCH_RESULTS).length ≤ 2 ∧
    r.report_prompt = ReportAgent.mkPrompt (pyTake topic 200)
      (gv.coerceToList.take MAX_SEARCH_RESULTS)
      (av.coerceToList.take MAX_SEARCH_RESULTS) ∧
    pyLen (ReportAgent.safe_google
      (gv.coerceToList.take MAX_SEARCH_RESULTS)) ≤ 1500 ∧
    pyLen (ReportAgent.safe_arxiv
      (av.coerceToList.take MAX_SEARCH_RESULTS)) ≤ 1500 := by
  injection h with h'
  subst h'
  refine ⟨rfl, pyLen_pyTake_le topic 200, ?_, ?_, rfl,
    pyLen_pyTake_le _ 1500, pyLen_pyTake_le _ 1500⟩
  · simp only [List.length_take, MAX_SEARCH_RESULTS]
    omega
  · simp only [List.length_take, MAX_SEARCH_RESULTS]
    omega

/-- C6 witness: the bounds at one concrete success-path invocation. -/
theorem claim_C6_witness :
    MAX_SEARCH_RESULTS = 2 ∧
    pyLen (pyTake "t" 200) ≤ 200 ∧
    (((PyVal.list ([] : List SearchResult)).coerceToList).take
      MAX_SEARCH_RESULTS).length ≤ 2 ∧
    (((PyVal.list ([] : List PaperResult)).coerceToList).take
      MAX_SEARCH_RESULTS).length ≤ 2 ∧
    ReportAgent.mkPrompt (pyTake "t" 200) [] [] =
      ReportAgent.mkPrompt (pyTake "t" 200)
        (((PyVal.list ([] : List SearchResult)).coerceToList).take
          MAX_SEARCH_RESULTS)
        (((PyVal.list ([] : List PaperResult)).coerceToList).take
          MAX_SEARCH_RESULTS) ∧
    pyLen (ReportAgent.safe_google
      (((PyVal.list ([] : List SearchResult)).coerceToList).take
        MAX_SEARCH_RESULTS)) ≤ 1500 ∧
    pyLen (ReportAgent.safe_arxiv
      (((PyVal.list ([] : List PaperResult)).coerceToList).take
        MAX_SEARCH_RESULTS)) ≤ 1500 :=
  claim_C6_generation_context_capped (.list []) "g" (.list []) "a"
    (.output 1 "d") "t"
    { google_prompt := "g"
      arxiv_prompt := "a"
      report_prompt := ReportAgent.mkPrompt (pyTake "t" 200) [] []
      google_results := []
      arxiv_results := []
      literature_review := pyTake "d" 5000 } rfl

/-- C9: a topic that is empty or whitespace-only is rejected by the entry
point before the team is constructed, for every environment — so no
search call is made for that invocation. -/
theorem claim_C9_blank_topic_rejected (topic : String)
    (h : pyStrip topic = "") (genv : GoogleEnv) (aenv : ArxivEnv)
    (gen : GenEnv) :
    App.main genv aenv gen topic = .rejected := by
  simp [App.main, h]

/-- C9 witness: the empty topic and a whitespace-only topic are rejected
under environments that would otherwise be consulted. -/
theorem claim_C9_witness :
    App.main (.ok []) (.fail "n") (.raise "o") "" = .rejected ∧
    App.main (.fail "m") (.stream [] false) (.output 1 "d") " " =
      .rejected :=
  ⟨claim_C9_blank_topic_rejected "" (by decide) (.ok []) (.fail "n")
      (.raise "o"),
   claim_C9_blank_topic_rejected " " (by decide) (.fail "m")
      (.stream [] false) (.output 1 "d")⟩

/-- C10: the returned dict contains the key "error" if and only if an
exception escaped the pipeline, and every failure-variant dict carries a
literature_review value equal to the fixed failure string. -/
theorem claim_C10_error_key_discriminates
    (gs : Except String (PyVal SearchResult × String))
    (as : Except String (PyVal PaperResult × String))
    (rs : Except String GenEnv) (topic : String) :
    ("error" ∈ (LiteratureReviewTeam.conduct_review gs as rs topic).keys ↔
      firstStepError gs as rs ≠ none) ∧
    (∀ e l, LiteratureReviewTeam.conduct_review gs as rs topic =
        .failure e l →
      l = "Failed to generate review due to system error") := by
  rcases gs with e | ⟨gv, gp⟩
  · refine ⟨⟨fun _ => by simp [firstStepError], fun _ => ?_⟩, fun e' l h => ?_⟩
    · show "error" ∈ ["error", "literature_review"]
      simp
    · have h2 : PipelineResult.failure ("System error: " ++ e)
          "Failed to generate review due to system error" =
            .failure e' l := h
      injection h2 with h3 h4
      exact h4.symm
  · rcases as with e | ⟨av, ap⟩
    · refine ⟨⟨fun _ => by simp [firstStepError], fun _ => ?_⟩,
        fun e' l h => ?_⟩
      · show "error" ∈ ["error", "literature_review"]
        simp
      · have h2 : PipelineResult.failure ("System error: " ++ e)
            "Failed to generate review due to system error" =
              .failure e' l := h
        injection h2 with h3 h4
        exact h4.symm
    · rcases rs with e | gen
      · refine ⟨⟨fun _ => by simp [firstStepError], fun _ => ?_⟩,
          fun e' l h => ?_⟩
        · show "error" ∈ ["error", "literature_review"]
          simp
        · have h2 : PipelineResult.failure ("System error: " ++ e)
              "Failed to generate review due to system error" =
                .failure e' l := h
          injection h2 with h3 h4
          exact h4.symm
      · refine ⟨⟨fun hmem => ?_, fun hne => ?_⟩, fun e' l h => ?_⟩
        · have : "error" ∈ ["google_prompt", "arxiv_prompt",
            "report_prompt", "google_results", "arxiv_results",
            "literature_review"] := hmem
          exact absurd this (by decide)
        · exact absurd rfl hne
        · injection h

/-- C10 witness: the discriminator and the fixed failure review string at
one concrete failing input. -/
theorem claim_C10_witness :
    ("error" ∈ (LiteratureReviewTeam.conduct_review (.error "boom")
        (.ok (.list [], "a")) (.ok (.output 1 "d")) "t").keys ↔
      firstStepError (.error "boom") (.ok (.list [], "a"))
        (.ok (.output 1 "d")) ≠ none) ∧
    "Failed to generate review due to system error" =
      "Failed to generate review due to system error" :=
  ⟨(claim_C10_error_key_discriminates (.error "boom") (.ok (.list [], "a"))
      (.ok (.output 1 "d")) "t").1,
   (claim_C10_error_key_discriminates (.error "boom") (.ok (.list [], "a"))
      (.ok (.output 1 "d")) "t").2 ("System error: " ++ "boom")
     "Failed to generate review due to system error" rfl⟩

/-- C4 counterexample: the claim asserts the failure variant is a single
error message string and that the two variants share no payload fields.
At this concrete input the failure dict's keys are
["error", "literature_review"] — not a single error entry — and the
literature_review key is carried by both variants, so they do share a
payload field. -/
theorem claim_C4_counterexample :
    (LiteratureReviewTeam.conduct_review (.error "boom")
        (.ok (.list [], "a")) (.ok (.output 1 "d")) "t").keys =
      ["error", "literature_review"] ∧
    "literature_review" ∈ (LiteratureReviewTeam.conduct_review
        (.error "boom") (.ok (.list [], "a")) (.ok (.output 1 "d"))
        "t").keys ∧
    "literature_review" ∈ (LiteratureReviewTeam.conduct_review
        (.ok (.list [], "g")) (.ok (.list [], "a")) (.ok (.output 1 "d"))
        "t").keys := by
  refine ⟨rfl, ?_, ?_⟩
  · show "literature_review" ∈ ["error", "literature_review"]
    simp
  · show "literature_review" ∈ ["google_prompt", "arxiv_prompt",
      "report_prompt", "google_results", "arxiv_results",
      "literature_review"]
    simp

/-- C4 amended: `PipelineResult` is a discriminated union — the success
variant aggregates the prompts, both result lists and the review text,
while the failure variant consists of an error message string together
with a literature_review field holding the fixed failure string; the two
variants share exactly the literature_review key. -/
theorem claim_C4_amended_discriminated_union
    (gs : Except String (PyVal SearchResult × String))
    (as : Except String (PyVal PaperResult × String))
    (rs : Except String GenEnv) (topic : String) :
    (∃ r, LiteratureReviewTeam.conduct_review gs as rs topic =
        .success r ∧
      (LiteratureReviewTeam.conduct_review gs as rs topic).keys =
        ["google_prompt", "arxiv_prompt", "report_prompt",
         "google_results", "arxiv_results", "literature_review"]) ∨
    (∃ e, LiteratureReviewTeam.conduct_review gs as rs topic =
        .failure e "Failed to generate review due to system error" ∧
      (LiteratureReviewTeam.conduct_review gs as rs topic).keys =
        ["error", "literature_review"]) := by
  rcases gs with e | ⟨gv, gp⟩
  · exact .inr ⟨"System error: " ++ e, rfl, rfl⟩
  · rcases as with e | ⟨av, ap⟩
    · exact .inr ⟨"System error: " ++ e, rfl, rfl⟩
    · rcases rs with e | gen
      · exact .inr ⟨"System error: " ++ e, rfl, rfl⟩
      · exact .inl ⟨_, rfl, rfl⟩
